import Mathlib

/-!
Shallow embedding of the scroll-driven frame animation of `src/script.js`
(class `ScrollFrameAnimation`), together with theorems settling the claims
about it.

JavaScript numbers are modelled by `JSNum`: NaN, an infinity, or a finite
value carried as a rational (the claims under study concern clamping,
flooring, comparison and division-by-zero behaviour, none of which depend
on binary rounding).  The DOM side effects of the scroll handler are
modelled as an explicit effect list, and the canvas 2D context as a small
state machine over the operations the code issues.
-/

namespace ScrollFrame

/-- A JavaScript number: NaN, positive or negative Infinity, or a finite
value modelled as a rational. -/
inductive JSNum where
  | nan
  | posInf
  | negInf
  | fin (q : ℚ)
deriving DecidableEq

/-- JavaScript `<` on numbers: any comparison with NaN is false. -/
def jsLt : JSNum → JSNum → Bool
  | .nan, _ => false
  | _, .nan => false
  | .fin x, .fin y => decide (x < y)
  | .posInf, _ => false
  | .negInf, .negInf => false
  | .negInf, _ => true
  | .fin _, .posInf => true
  | .fin _, .negInf => false

/-- JavaScript `>=` on numbers: false if either side is NaN, otherwise the
negation of `<`. -/
def jsGe (a b : JSNum) : Bool :=
  match a, b with
  | .nan, _ => false
  | _, .nan => false
  | _, _ => !(jsLt a b)

/-- JavaScript `>` on numbers. -/
def jsGt (a b : JSNum) : Bool := jsLt b a

/-- JavaScript `===` on numbers: NaN is equal to nothing, including itself. -/
def jsStrictEq : JSNum → JSNum → Bool
  | .nan, _ => false
  | _, .nan => false
  | a, b => decide (a = b)

/-- `Math.max` on two numbers: NaN if either argument is NaN. -/
def jsMax : JSNum → JSNum → JSNum
  | .nan, _ => .nan
  | _, .nan => .nan
  | .posInf, _ => .posInf
  | _, .posInf => .posInf
  | .negInf, b => b
  | a, .negInf => a
  | .fin x, .fin y => .fin (max x y)

/-- `Math.min` on two numbers: NaN if either argument is NaN. -/
def jsMin : JSNum → JSNum → JSNum
  | .nan, _ => .nan
  | _, .nan => .nan
  | .negInf, _ => .negInf
  | _, .negInf => .negInf
  | .posInf, b => b
  | a, .posInf => a
  | .fin x, .fin y => .fin (min x y)

/-- JavaScript division, including the division-by-zero cases: `0/0` is
NaN, `x/0` for nonzero finite `x` is a signed infinity. -/
def jsDiv : JSNum → JSNum → JSNum
  | .nan, _ => .nan
  | _, .nan => .nan
  | .posInf, .posInf => .nan
  | .posInf, .negInf => .nan
  | .negInf, .posInf => .nan
  | .negInf, .negInf => .nan
  | .posInf, .fin y => if 0 ≤ y then .posInf else .negInf
  | .negInf, .fin y => if 0 ≤ y then .negInf else .posInf
  | .fin _, .posInf => .fin 0
  | .fin _, .negInf => .fin 0
  | .fin x, .fin y =>
      if y = 0 then
        if x = 0 then .nan else if 0 < x then .posInf else .negInf
      else .fin (x / y)

/-- JavaScript multiplication: NaN absorbs, infinity times zero is NaN. -/
def jsMul : JSNum → JSNum → JSNum
  | .nan, _ => .nan
  | _, .nan => .nan
  | .fin x, .fin y => .fin (x * y)
  | .posInf, .posInf => .posInf
  | .posInf, .negInf => .negInf
  | .negInf, .posInf => .negInf
  | .negInf, .negInf => .posInf
  | .posInf, .fin y => if y = 0 then .nan else if 0 < y then .posInf else .negInf
  | .negInf, .fin y => if y = 0 then .nan else if 0 < y then .negInf else .posInf
  | .fin x, .posInf => if x = 0 then .nan else if 0 < x then .posInf else .negInf
  | .fin x, .negInf => if x = 0 then .nan else if 0 < x then .negInf else .posInf

/-- `Math.floor`. -/
def jsFloor : JSNum → JSNum
  | .nan => .nan
  | .posInf => .posInf
  | .negInf => .negInf
  | .fin q => .fin ⌊q⌋

/-- Reading `images[x]` for a JavaScript number `x` hits an array slot only
when `x` is a non-negative integer; NaN, infinities, negative and
fractional values all read `undefined`. -/
def toIndex : JSNum → Option ℕ
  | .fin q => if 0 ≤ q.num ∧ q.den = 1 then some q.num.toNat else none
  | _ => none

/-- `this.frameCount` (script.js line 17). -/
def frameCount : ℕ := 192

/-- A decoded image: the dimensions the loaded `Image` element reports. -/
structure Image where
  width : ℕ
  height : ℕ
deriving DecidableEq

/-- Lines 192-194: `scrolled = -heroRect.top`,
`maxScroll = heroHeight - viewportHeight`,
`progress = Math.min(Math.max(scrolled / maxScroll, 0), 1)`. -/
def progressOf (heroTop heroHeight viewportHeight : ℚ) : JSNum :=
  let scrolled : ℚ := -heroTop
  let maxScroll : ℚ := heroHeight - viewportHeight
  jsMin (jsMax (jsDiv (.fin scrolled) (.fin maxScroll)) (.fin 0)) (.fin 1)

/-- Line 198 restricted to a finite progress value:
`targetFrame = Math.floor(progress * (frameCount - 1))`. -/
def targetFrame (progress : ℚ) : ℤ := ⌊progress * ((frameCount : ℚ) - 1)⌋

/-- Lines 198-201 on a general JavaScript number:
`targetFrame = Math.floor(progress * (frameCount - 1))` followed by
`newFrame = Math.min(Math.max(targetFrame, 0), frameCount - 1)`. -/
def newFrameOf (progress : JSNum) : JSNum :=
  jsMin (jsMax (jsFloor (jsMul progress (.fin ((frameCount : ℚ) - 1)))) (.fin 0))
    (.fin ((frameCount : ℚ) - 1))

/-- CSS `position` values the handler assigns. -/
inductive CSSPosition where
  | fixed
  | absolute
deriving DecidableEq

/-- DOM side effects issued by the scroll handler, in issue order. -/
inductive DomEffect where
  | draw (frameIndex : ℕ)
  | setProgressBarWidth (percent : JSNum)
  | addClass (element cls : String)
  | removeClass (element cls : String)
  | setPosition (element : String) (pos : CSSPosition) (top : ℚ)
deriving DecidableEq

/-- Mutable fields of the player that the scroll handler reads or writes
(script.js lines 17-22). -/
structure PlayerState where
  isLoaded : Bool
  currentFrame : ℕ
  isAnimationComplete : Bool
deriving DecidableEq

/-- Environment a scroll evaluation reads: the container's top edge
relative to the viewport (`heroRect.top`), the container height
(`heroHeight`), the viewport height, and the `images` array (a slot is
`some img` once its decode callback stored the element). -/
structure ScrollEnv where
  heroTop : ℚ
  heroHeight : ℚ
  viewportHeight : ℚ
  images : ℕ → Option Image

/-- Lines 203-206: update `currentFrame` and redraw only when the new
frame differs (JavaScript `!==`) and its slot is populated. -/
def frameUpdate (images : ℕ → Option Image) (cur : ℕ) (newFrame : JSNum) :
    ℕ × List DomEffect :=
  if jsStrictEq newFrame (.fin (cur : ℚ)) then (cur, [])
  else
    match toIndex newFrame with
    | some n => if (images n).isSome then (n, [.draw n]) else (cur, [])
    | none => (cur, [])

/-- Lines 214-220: the progress indicator is visible exactly while
`progress > 0 && progress < 1`. -/
def visibilityFx (progress : JSNum) : List DomEffect :=
  if jsGt progress (.fin 0) && jsLt progress (.fin 1) then
    [.addClass ("scroll-progress") ("visible")]
  else
    [.removeClass ("scroll-progress") ("visible")]

/-- Lines 222-229: fade the content wrapper and hide the scroll indicator
once `progress > 0.05`. -/
def fadeFx (progress : JSNum) : List DomEffect :=
  if jsGt progress (.fin (1 / 20)) then
    [.addClass ("hero-content-wrapper") ("fade-out"),
     .addClass ("hero-scroll-indicator") ("hidden")]
  else
    [.removeClass ("hero-content-wrapper") ("fade-out"),
     .removeClass ("hero-scroll-indicator") ("hidden")]

/-- Lines 233-244: the overlay is `absolute` at
`heroHeight - viewportHeight` once `progress >= 1`, else `fixed` at 0. -/
def overlayUpdate (progress : JSNum) (heroHeight viewportHeight : ℚ) :
    CSSPosition × ℚ :=
  if jsGe progress (.fin 1) then (.absolute, heroHeight - viewportHeight)
  else (.fixed, 0)

/-- Lines 247-255: the content wrapper gets the same positioning switch as
the overlay. -/
def contentWrapperUpdate (progress : JSNum) (heroHeight viewportHeight : ℚ) :
    CSSPosition × ℚ :=
  if jsGe progress (.fin 1) then (.absolute, heroHeight - viewportHeight)
  else (.fixed, 0)

/-- `handleScroll` (script.js lines 183-256): bail out while not loaded,
otherwise compute progress, update the frame, and issue the per-scroll
DOM effects in source order. -/
def handleScroll (s : PlayerState) (e : ScrollEnv) :
    PlayerState × List DomEffect :=
  if s.isLoaded then
    let progress := progressOf e.heroTop e.heroHeight e.viewportHeight
    let fu := frameUpdate e.images s.currentFrame (newFrameOf progress)
    let ov := overlayUpdate progress e.heroHeight e.viewportHeight
    let cw := contentWrapperUpdate progress e.heroHeight e.viewportHeight
    ({ isLoaded := s.isLoaded, currentFrame := fu.1,
       isAnimationComplete := jsGe progress (.fin 1) },
     fu.2 ++ [DomEffect.setProgressBarWidth (jsMul progress (.fin 100))]
        ++ visibilityFx progress ++ fadeFx progress
        ++ [DomEffect.setPosition ("hero-overlay") ov.1 ov.2,
            DomEffect.setPosition ("hero-content-wrapper") cw.1 cw.2])
  else (s, [])

/-- Invariant claimed for `currentFrame`: it indexes a populated slot of
the frame set, or it still has its initial value 0. -/
def FrameInvariant (images : ℕ → Option Image) (cur : ℕ) : Prop :=
  (cur < frameCount ∧ (images cur).isSome = true) ∨ cur = 0

/-- The geometry of the canvas: internal buffer size (`canvas.width`,
`canvas.height`), logical display size, and the device pixel ratio
(`setupCanvas`, lines 41-63). -/
structure Surface where
  width : ℚ
  height : ℚ
  displayWidth : ℚ
  displayHeight : ℚ
  dpr : ℚ
deriving DecidableEq

/-- Cover-fit result of lines 142-163: draw size and centering offsets. -/
structure CoverFit where
  drawWidth : ℚ
  drawHeight : ℚ
  offsetX : ℚ
  offsetY : ℚ
deriving DecidableEq

/-- Lines 142-163: cover fit.  If the canvas aspect exceeds the image
aspect, scale the image to the canvas width and let height overflow;
otherwise scale it to the canvas height and let width overflow; then
center it. -/
def coverFit (imgWidth imgHeight canvasWidth canvasHeight : ℚ) : CoverFit :=
  let imgAspect := imgWidth / imgHeight
  let canvasAspect := canvasWidth / canvasHeight
  if canvasAspect > imgAspect then
    let drawWidth := canvasWidth
    let drawHeight := canvasWidth / imgAspect
    ⟨drawWidth, drawHeight, (canvasWidth - drawWidth) / 2,
      (canvasHeight - drawHeight) / 2⟩
  else
    let drawHeight := canvasHeight
    let drawWidth := canvasHeight * imgAspect
    ⟨drawWidth, drawHeight, (canvasWidth - drawWidth) / 2,
      (canvasHeight - drawHeight) / 2⟩

/-- 2D-context operations `drawFrame` issues. -/
inductive CanvasOp where
  | setTransform (a b c d e f : ℚ)
  | clearRect (x y w h : ℚ)
  | setFillStyle (color : String)
  | fillRect (x y w h : ℚ)
  | scale (sx sy : ℚ)
  | drawImage (img : Image) (dx dy dw dh : ℚ)
deriving DecidableEq

/-- `drawFrame` (lines 116-167) as the operation trace it issues: empty
when the slot is unpopulated or there is no context; the transform reset,
full-buffer clear, background fill and density scale always happen
otherwise, and the image draw is skipped when the image reports a zero
dimension (guard on line 138, which sits after the clear and fill). -/
def drawFrame (slot : Option Image) (hasCtx : Bool) (s : Surface) :
    List CanvasOp :=
  match slot, hasCtx with
  | none, _ => []
  | some _, false => []
  | some img, true =>
    let pre : List CanvasOp :=
      [.setTransform 1 0 0 1 0 0,
       .clearRect 0 0 s.width s.height,
       .setFillStyle ("#0f0f0f"),
       .fillRect 0 0 s.width s.height,
       .scale s.dpr s.dpr]
    if img.width = 0 ∨ img.height = 0 then pre
    else
      let c := coverFit (img.width : ℚ) (img.height : ℚ)
        s.displayWidth s.displayHeight
      pre ++ [.drawImage img c.offsetX c.offsetY c.drawWidth c.drawHeight]

/-- A 2D affine transform `[a c e; b d f]`, as `setTransform` sets it. -/
structure Transform where
  a : ℚ
  b : ℚ
  c : ℚ
  d : ℚ
  e : ℚ
  f : ℚ
deriving DecidableEq

/-- The identity transform, `setTransform(1, 0, 0, 1, 0, 0)`. -/
def Transform.id : Transform := ⟨1, 0, 0, 1, 0, 0⟩

/-- `ctx.scale(sx, sy)` composed onto an existing transform. -/
def Transform.scaleBy (t : Transform) (sx sy : ℚ) : Transform :=
  ⟨t.a * sx, t.b * sx, t.c * sy, t.d * sy, t.e, t.f⟩

/-- A paint record deposited in the pixel buffer: a rectangle fill or an
image draw, each remembered with the transform active when issued. -/
inductive Paint where
  | fill (color : String) (x y w h : ℚ) (t : Transform)
  | image (img : Image) (dx dy dw dh : ℚ) (t : Transform)
deriving DecidableEq

/-- Pixel-level canvas state.  `paints = some l` means the buffer holds
exactly the records `l` painted over a fully cleared buffer; `paints =
none` means indeterminate content (e.g. after a partial clear, which the
embedding does not model geometrically). -/
structure CanvasState where
  width : ℚ
  height : ℚ
  transform : Transform
  fillStyle : String
  paints : Option (List Paint)
deriving DecidableEq

/-- Semantics of one 2D-context operation on the canvas state.  A
`clearRect` covering the whole buffer under the identity transform resets
the buffer; any other clear leaves it indeterminate. -/
def applyOp (st : CanvasState) (op : CanvasOp) : CanvasState :=
  match op with
  | .setTransform a b c d e f => { st with transform := ⟨a, b, c, d, e, f⟩ }
  | .scale sx sy => { st with transform := st.transform.scaleBy sx sy }
  | .setFillStyle color => { st with fillStyle := color }
  | .clearRect x y w h =>
      if st.transform = Transform.id ∧ x = 0 ∧ y = 0 ∧ w = st.width ∧ h = st.height
      then { st with paints := some [] }
      else { st with paints := none }
  | .fillRect x y w h =>
      { st with paints :=
          st.paints.map (· ++ [.fill st.fillStyle x y w h st.transform]) }
  | .drawImage img dx dy dw dh =>
      { st with paints :=
          st.paints.map (· ++ [.image img dx dy dw dh st.transform]) }

/-- Run a trace of context operations over a canvas state. -/
def applyOps (st : CanvasState) (ops : List CanvasOp) : CanvasState :=
  ops.foldl applyOp st

/-- A decode completion event for one frame slot of `preloadImages`
(lines 85-113): the `onload` or `onerror` callback of image `i`. -/
inductive LoadEvent where
  | success (i : ℕ)
  | failure (i : ℕ)
deriving DecidableEq

/-- Loader-side player state touched by the decode callbacks:
`images` slot occupancy, `loadedCount`, `isLoaded`, and how many times the
ready transition (redraw of frame 0 plus the scheduled preloader hide) has
run. -/
structure LoadState where
  images : List Bool
  loadedCount : ℕ
  isLoaded : Bool
  readyEvents : ℕ
deriving DecidableEq

/-- State after the constructor: no slot populated, nothing counted. -/
def initialLoadState : LoadState :=
  ⟨List.replicate frameCount false, 0, false, 0⟩

/-- One decode callback (lines 89-112).  `onload` stores the image,
increments `loadedCount` and, only there, checks
`loadedCount === frameCount` to run the ready transition; `onerror` only
logs and increments `loadedCount`. -/
def loadStep (s : LoadState) (ev : LoadEvent) : LoadState :=
  match ev with
  | .success i =>
      let withImage : LoadState :=
        { s with images := s.images.set i true,
                 loadedCount := s.loadedCount + 1 }
      if withImage.loadedCount = frameCount then
        { withImage with isLoaded := true,
                         readyEvents := withImage.readyEvents + 1 }
      else withImage
  | .failure _ => { s with loadedCount := s.loadedCount + 1 }

/-- Run a completion order (a list of decode events) from the initial
state. -/
def runLoad (evs : List LoadEvent) : LoadState :=
  evs.foldl loadStep initialLoadState

/-- The completion order in which every frame except index 50 decodes
successfully first, and the failing frame's `onerror` arrives last. -/
def failureLastOrder : List LoadEvent :=
  ((List.range frameCount).filter (fun i => i != 50)).map LoadEvent.success
    ++ [LoadEvent.failure 50]

/-- A sample decoded image used by concrete evaluations. -/
def sampleImage : Image := ⟨800, 600⟩

/-- A scroll environment halfway through the hero section
(progress 1/2, hence target frame 95) in which frame 95 failed to load. -/
def env95 : ScrollEnv :=
  { heroTop := -191, heroHeight := 1182, viewportHeight := 800,
    images := fun n => if n = 95 then none else some sampleImage }

/-- The same halfway scroll environment with every slot populated. -/
def envAll : ScrollEnv :=
  { heroTop := -191, heroHeight := 1182, viewportHeight := 800,
    images := fun _ => some sampleImage }

/-- A sample surface: a 1920 by 1080 logical canvas at density 2. -/
def surf0 : Surface := ⟨3840, 2160, 1920, 1080, 2⟩

/-- A sample canvas state matching `surf0`, with indeterminate prior
buffer content. -/
def st0 : CanvasState := ⟨3840, 2160, Transform.id, ("#000000"), none⟩

/-- A loaded image reporting zero width. -/
def zeroWidthImage : Image := ⟨0, 1080⟩

/-!
Helper lemmas about the JavaScript-number operations and the scroll
handler, shared by the claim theorems below.
-/

theorem progressOf_fin (t hh vh : ℚ) (h : hh - vh ≠ 0) :
    progressOf t hh vh = .fin (min (max ((-t)/(hh - vh)) 0) 1) := by
  simp [progressOf, jsDiv, jsMax, jsMin, h]

theorem newFrameOf_fin (p : ℚ) : newFrameOf (.fin p) =
    .fin (min (max ((⌊p * ((frameCount : ℚ) - 1)⌋ : ℚ)) 0)
      ((frameCount : ℚ) - 1)) := by
  simp [newFrameOf, jsMul, jsFloor, jsMax, jsMin]

theorem newFrame_halfway :
    newFrameOf (progressOf (-191) 1182 800) = .fin ((95 : ℤ) : ℚ) := by
  rw [show progressOf (-191) 1182 800 = .fin (1/2) by
        rw [progressOf_fin _ _ _ (by norm_num)]; norm_num,
      newFrameOf_fin]
  norm_num [frameCount]

theorem toIndex_intCast (z : ℤ) (hz : 0 ≤ z) :
    toIndex (.fin (z : ℚ)) = some z.toNat := by
  simp [toIndex, hz]

theorem jsStrictEq_eq {a b : JSNum} (h : jsStrictEq a b = true) : a = b := by
  cases a <;> cases b <;> simp_all [jsStrictEq]

theorem toIndex_natCast (n : ℕ) : toIndex (.fin (n : ℚ)) = some n := by
  simp [toIndex]

theorem toIndex_fin_val {q : ℚ} {n : ℕ} (h : toIndex (.fin q) = some n) :
    (n : ℚ) = q := by
  simp only [toIndex] at h
  split at h
  next h0 =>
    injection h with h
    subst h
    have h1 : ((q.num.toNat : ℤ) : ℚ) = (q.num : ℚ) := by
      rw [Int.toNat_of_nonneg h0.1]
    have h2 : (q.num : ℚ) = q := by
      conv_rhs => rw [← Rat.num_div_den q]
      rw [h0.2]
      simp
    rw [← h2, ← h1]
    push_cast
    rfl
  next => exact absurd h (by simp)

theorem toIndex_jsMin_le (x : JSNum) (c : ℚ) (n : ℕ)
    (h : toIndex (jsMin x (.fin c)) = some n) : (n : ℚ) ≤ c := by
  cases x with
  | nan => simp [jsMin, toIndex] at h
  | posInf => exact le_of_eq (toIndex_fin_val (by simpa [jsMin] using h))
  | negInf => simp [jsMin, toIndex] at h
  | fin y =>
      have h' : (n : ℚ) = min y c := toIndex_fin_val (by simpa [jsMin] using h)
      rw [h']
      exact min_le_right y c

theorem newFrameOf_toIndex_lt (p : JSNum) (n : ℕ)
    (h : toIndex (newFrameOf p) = some n) : n < frameCount := by
  have h1 : (n : ℚ) ≤ (frameCount : ℚ) - 1 := toIndex_jsMin_le _ _ _ h
  have h2 : (n : ℚ) ≤ 191 := by
    rwa [show ((frameCount : ℚ) - 1) = 191 by norm_num [frameCount]] at h1
  have h3 : n ≤ 191 := by exact_mod_cast h2
  show n < frameCount
  rw [frameCount]
  omega

theorem frameUpdate_fst_inv (images : ℕ → Option Image) (cur : ℕ) (nf : JSNum)
    (hb : ∀ n, toIndex nf = some n → n < frameCount)
    (h : FrameInvariant images cur) :
    FrameInvariant images (frameUpdate images cur nf).1 := by
  unfold frameUpdate
  split
  · exact h
  · rcases hti : toIndex nf with _ | n
    · simp only [hti]
      exact h
    · simp only [hti]
      split
      case isTrue hl => exact Or.inl ⟨hb n hti, hl⟩
      case isFalse => exact h

theorem frameUpdate_fst_loaded (images : ℕ → Option Image) (cur n : ℕ)
    (nf : JSNum) (hti : toIndex nf = some n)
    (hl : (images n).isSome = true) : (frameUpdate images cur nf).1 = n := by
  by_cases heq : jsStrictEq nf (.fin (cur : ℚ)) = true
  · have hnf : nf = .fin (cur : ℚ) := jsStrictEq_eq heq
    rw [hnf, toIndex_natCast] at hti
    injection hti with hti
    rw [frameUpdate, if_pos heq, hti]
  · rw [frameUpdate, if_neg heq]
    simp only [hti, hl, if_true]

theorem handleScroll_not_loaded (s : PlayerState) (e : ScrollEnv)
    (h : s.isLoaded = false) : handleScroll s e = (s, []) := by
  simp [handleScroll, h]

theorem handleScroll_fst_currentFrame (s : PlayerState) (e : ScrollEnv)
    (h : s.isLoaded = true) :
    (handleScroll s e).1.currentFrame =
      (frameUpdate e.images s.currentFrame
        (newFrameOf (progressOf e.heroTop e.heroHeight e.viewportHeight))).1 := by
  simp [handleScroll, h]

theorem jsLt_jsGe_exclusive (a b : JSNum) (h : jsLt a b = true) :
    jsGe a b = false := by
  cases a <;> cases b <;> simp_all [jsLt, jsGe]

theorem applyOp_width (st : CanvasState) (op : CanvasOp) :
    (applyOp st op).width = st.width := by
  cases op
  case clearRect x y w h =>
    simp only [applyOp]
    split <;> rfl
  all_goals rfl

theorem applyOp_height (st : CanvasState) (op : CanvasOp) :
    (applyOp st op).height = st.height := by
  cases op
  case clearRect x y w h =>
    simp only [applyOp]
    split <;> rfl
  all_goals rfl

theorem applyOps_width (st : CanvasState) (ops : List CanvasOp) :
    (applyOps st ops).width = st.width := by
  induction ops generalizing st with
  | nil => rfl
  | cons op ops ih =>
      show (applyOps (applyOp st op) ops).width = st.width
      rw [ih, applyOp_width]

theorem applyOps_height (st : CanvasState) (ops : List CanvasOp) :
    (applyOps st ops).height = st.height := by
  induction ops generalizing st with
  | nil => rfl
  | cons op ops ih =>
      show (applyOps (applyOp st op) ops).height = st.height
      rw [ih, applyOp_height]

theorem applyOps_drawFrame_eq (img : Image) (s : Surface)
    (st₁ st₂ : CanvasState) (hw : st₁.width = st₂.width)
    (hh : st₁.height = st₂.height) :
    applyOps st₁ (drawFrame (some img) true s) =
      applyOps st₂ (drawFrame (some img) true s) := by
  obtain ⟨w₁, h₁, t₁, f₁, p₁⟩ := st₁
  obtain ⟨w₂, h₂, t₂, f₂, p₂⟩ := st₂
  simp only at hw hh
  subst hw hh
  simp only [drawFrame]
  split
  · simp only [applyOps, List.foldl_cons, List.foldl_nil, applyOp]
    split_ifs <;> rfl
  · simp only [applyOps, List.cons_append, List.nil_append, List.foldl_cons,
      List.foldl_nil, applyOp]
    split_ifs <;> rfl

/-!
Claim theorems.
-/

/-- Claim C1, amended: the computed progress value is a finite rational in
the interval from 0 to 1 for every container top offset, container height
and viewport height, except in the single excluded configuration where the
container top is 0 while the container height equals the viewport height
(there the code divides 0 by 0 and the clamp of NaN is NaN). -/
theorem progress_in_unit_interval (heroTop heroHeight viewportHeight : ℚ)
    (h : ¬(heroTop = 0 ∧ heroHeight = viewportHeight)) :
    ∃ q : ℚ, progressOf heroTop heroHeight viewportHeight = .fin q ∧
      0 ≤ q ∧ q ≤ 1 := by
  by_cases hm : heroHeight - viewportHeight = 0
  · have ht : heroTop ≠ 0 := fun h0 => h ⟨h0, by linarith⟩
    have ht' : -heroTop ≠ 0 := neg_ne_zero.mpr ht
    rcases lt_trichotomy (-heroTop) 0 with hlt | heq | hgt
    · refine ⟨0, ?_, le_refl 0, by norm_num⟩
      simp [progressOf, jsDiv, hm, ht', not_lt.mpr (le_of_lt hlt), jsMax, jsMin]
    · exact absurd heq ht'
    · refine ⟨1, ?_, by norm_num, le_refl 1⟩
      simp [progressOf, jsDiv, hm, ht', hgt, jsMax, jsMin]
  · refine ⟨min (max ((-heroTop)/(heroHeight - viewportHeight)) 0) 1, ?_, ?_, ?_⟩
    · exact progressOf_fin _ _ _ hm
    · exact le_min (le_max_right _ 0) zero_le_one
    · exact min_le_right _ 1

/-- Witness for C1: a concrete scroll position halfway through the hero
section produces a progress value in the unit interval. -/
theorem progress_in_unit_interval_witness :
    ∃ q : ℚ, progressOf (-191) 1182 800 = .fin q ∧ 0 ≤ q ∧ q ≤ 1 :=
  progress_in_unit_interval (-191) 1182 800 (by norm_num)

/-- Counterexample to C1 as stated: with the container top at 0 and the
container height equal to the viewport height (both 800), the computed
progress is NaN, hence not a value in the unit interval. -/
theorem progress_nan_counterexample :
    ¬ ∃ q : ℚ, progressOf 0 800 800 = .fin q ∧ 0 ≤ q ∧ q ≤ 1 := by
  have hnan : progressOf 0 800 800 = JSNum.nan := by
    norm_num [progressOf, jsDiv, jsMax, jsMin]
  rintro ⟨q, hq, -, -⟩
  rw [hnan] at hq
  exact JSNum.noConfusion hq

set_option maxRecDepth 4000 in
/-- Claim C2: evaluation of the decode-callback model at the completion
order in which frame index 50 fails and its error callback arrives last.
All 192 callbacks complete and the shared count reaches 192, yet the
player never transitions to ready and the loading-complete path never
runs, because only the success callback tests the count. -/
theorem preload_failure_last_never_ready :
    (runLoad failureLastOrder).loadedCount = frameCount ∧
    (runLoad failureLastOrder).isLoaded = false ∧
    (runLoad failureLastOrder).readyEvents = 0 := by decide

/-- Claim C3, amended: two executions reaching the same scroll position
with the same set of loaded frames display the same frame, provided the
slot of the frame determined by that scroll position is loaded. -/
theorem displayed_frame_deterministic (s₁ s₂ : PlayerState) (e : ScrollEnv)
    (n : ℕ) (h1 : s₁.isLoaded = true) (h2 : s₂.isLoaded = true)
    (hti : toIndex (newFrameOf
      (progressOf e.heroTop e.heroHeight e.viewportHeight)) = some n)
    (hl : (e.images n).isSome = true) :
    (handleScroll s₁ e).1.currentFrame =
      (handleScroll s₂ e).1.currentFrame := by
  rw [handleScroll_fst_currentFrame s₁ e h1,
    handleScroll_fst_currentFrame s₂ e h2,
    frameUpdate_fst_loaded _ _ _ _ hti hl,
    frameUpdate_fst_loaded _ _ _ _ hti hl]

/-- Witness for C3: with every slot loaded, histories that last displayed
frame 94 and frame 96 agree after evaluating the same scroll position. -/
theorem displayed_frame_deterministic_witness :
    (handleScroll ⟨true, 94, false⟩ envAll).1.currentFrame =
      (handleScroll ⟨true, 96, false⟩ envAll).1.currentFrame :=
  displayed_frame_deterministic _ _ envAll 95 rfl rfl
    (by show toIndex (newFrameOf (progressOf (-191) 1182 800)) = some 95
        rw [newFrame_halfway, toIndex_intCast 95 (by norm_num)]
        rfl)
    rfl

/-- Counterexample to C3 as stated: at the scroll position targeting
frame 95, with frame 95 failed to load and all other slots loaded, a
history that last displayed frame 94 keeps displaying 94 while a history
that last displayed frame 96 keeps displaying 96. -/
theorem displayed_frame_history_counterexample :
    (handleScroll ⟨true, 94, false⟩ env95).1.currentFrame ≠
      (handleScroll ⟨true, 96, false⟩ env95).1.currentFrame := by
  have hti : toIndex (newFrameOf (progressOf (-191) 1182 800)) = some 95 := by
    rw [newFrame_halfway, toIndex_intCast 95 (by norm_num)]
    rfl
  have key : ∀ cur : ℕ, cur ≠ 95 →
      (handleScroll ⟨true, cur, false⟩ env95).1.currentFrame = cur := by
    intro cur hc
    rw [handleScroll_fst_currentFrame _ _ rfl]
    show (frameUpdate env95.images cur
      (newFrameOf (progressOf (-191) 1182 800))).1 = cur
    by_cases heq : jsStrictEq (newFrameOf (progressOf (-191) 1182 800))
        (.fin (cur : ℚ)) = true
    · rw [frameUpdate, if_pos heq]
    · rw [frameUpdate, if_neg heq]
      simp only [hti]
      have h95 : (env95.images 95).isSome = false := rfl
      simp [h95]
  rw [key 94 (by omega), key 96 (by omega)]
  omega

/-- Claim C4, amended: when `drawFrame` runs on a loaded image reporting
zero width or zero height, the image draw is skipped, but the surface is
not left untouched: the transform is reset, the whole buffer is cleared
and filled with the background colour, and the density scale is applied —
unlike the unloaded-slot and missing-context cases, which issue nothing. -/
theorem drawFrame_zero_dims_clears (img : Image) (s : Surface)
    (h : img.width = 0 ∨ img.height = 0) :
    drawFrame (some img) true s =
      [.setTransform 1 0 0 1 0 0,
       .clearRect 0 0 s.width s.height,
       .setFillStyle ("#0f0f0f"),
       .fillRect 0 0 s.width s.height,
       .scale s.dpr s.dpr] := by
  simp only [drawFrame, if_pos h]

/-- Witness for C4: the zero-width sample image on the sample surface
issues exactly the reset, clear, fill and scale operations. -/
theorem drawFrame_zero_dims_clears_witness :
    drawFrame (some zeroWidthImage) true surf0 =
      [.setTransform 1 0 0 1 0 0,
       .clearRect 0 0 surf0.width surf0.height,
       .setFillStyle ("#0f0f0f"),
       .fillRect 0 0 surf0.width surf0.height,
       .scale surf0.dpr surf0.dpr] :=
  drawFrame_zero_dims_clears zeroWidthImage surf0 (Or.inl rfl)

/-- Counterexample to C4 as stated: rendering a zero-width loaded image
does not leave the pixel buffer in the same state as rendering an
unloaded slot — the buffer is cleared and filled with the background. -/
theorem drawFrame_zero_dims_counterexample :
    ¬ (applyOps st0 (drawFrame (some zeroWidthImage) true surf0) =
        applyOps st0 (drawFrame none true surf0)) := by
  intro h
  have hL : (applyOps st0 (drawFrame (some zeroWidthImage) true surf0)).paints =
      some [Paint.fill ("#0f0f0f") 0 0 3840 2160 Transform.id] := by
    simp [drawFrame, zeroWidthImage, surf0, st0, applyOps, applyOp, Transform.id]
  have hR : (applyOps st0 (drawFrame none true surf0)).paints = none := rfl
  rw [h, hR] at hL
  exact Option.noConfusion hL

/-- Claim C5: the current-frame invariant — the index addresses a loaded
slot within bounds, or still equals its initial value 0 — holds at
construction, is preserved by every scroll evaluation (the index is only
updated when the target slot is loaded), and is stable under further
loading. -/
theorem currentFrame_invariant :
    (∀ images : ℕ → Option Image, FrameInvariant images 0) ∧
    (∀ (s : PlayerState) (e : ScrollEnv),
      FrameInvariant e.images s.currentFrame →
      FrameInvariant e.images (handleScroll s e).1.currentFrame) ∧
    (∀ (images₁ images₂ : ℕ → Option Image) (cur : ℕ),
      (∀ i, (images₁ i).isSome = true → (images₂ i).isSome = true) →
      FrameInvariant images₁ cur → FrameInvariant images₂ cur) := by
  refine ⟨fun _ => Or.inr rfl, ?_, ?_⟩
  · intro s e h
    cases hl : s.isLoaded
    · rw [handleScroll_not_loaded s e hl]
      exact h
    · rw [handleScroll_fst_currentFrame s e hl]
      exact frameUpdate_fst_inv _ _ _ (fun n hn => newFrameOf_toIndex_lt _ n hn) h
  · intro i1 i2 cur hmono h
    rcases h with ⟨hlt, hs⟩ | h0
    · exact Or.inl ⟨hlt, hmono _ hs⟩
    · exact Or.inr h0

/-- Witness for C5: a concrete scroll evaluation from the initial frame
index preserves the invariant. -/
theorem currentFrame_invariant_witness :
    FrameInvariant envAll.images
      ((handleScroll ⟨true, 0, false⟩ envAll).1.currentFrame) :=
  currentFrame_invariant.2.1 ⟨true, 0, false⟩ envAll (Or.inr rfl)

/-- Claim C6: for positive image and surface dimensions, the cover fit
yields a draw size at least the surface size on both axes, with equality
on the width when the surface aspect exceeds the image aspect and on the
height otherwise, and centers the image so overflow is cropped
symmetrically. -/
theorem coverFit_covers_and_centers (iw ih cw ch : ℚ)
    (hiw : 0 < iw) (hih : 0 < ih) (hcw : 0 < cw) (hch : 0 < ch) :
    cw ≤ (coverFit iw ih cw ch).drawWidth ∧
    ch ≤ (coverFit iw ih cw ch).drawHeight ∧
    (cw / ch > iw / ih → (coverFit iw ih cw ch).drawWidth = cw) ∧
    (¬(cw / ch > iw / ih) → (coverFit iw ih cw ch).drawHeight = ch) ∧
    (coverFit iw ih cw ch).offsetX =
      (cw - (coverFit iw ih cw ch).drawWidth) / 2 ∧
    (coverFit iw ih cw ch).offsetY =
      (ch - (coverFit iw ih cw ch).drawHeight) / 2 := by
  simp only [coverFit]
  split_ifs with h
  · have hkey : ch * iw ≤ cw * ih := by
      have h1 : iw * ch < cw * ih := (div_lt_div_iff₀ hih hch).mp h
      calc ch * iw = iw * ch := mul_comm ch iw
        _ ≤ cw * ih := le_of_lt h1
    refine ⟨le_refl cw, ?_, fun _ => rfl, fun hn => absurd h hn, rfl, rfl⟩
    rw [le_div_iff₀ (div_pos hiw hih), ← mul_div_assoc, div_le_iff₀ hih]
    exact hkey
  · have h' : cw / ch ≤ iw / ih := not_lt.mp h
    have hkey : cw * ih ≤ ch * iw := by
      have h1 : cw * ih ≤ iw * ch := (div_le_div_iff₀ hch hih).mp h'
      calc cw * ih ≤ iw * ch := h1
        _ = ch * iw := mul_comm iw ch
    refine ⟨?_, le_refl ch, fun hc => absurd hc h, fun _ => rfl, rfl, rfl⟩
    rw [← mul_div_assoc, le_div_iff₀ hih]
    exact hkey

/-- Witness for C6: a 4:3 image on a 16:9 surface is scaled to the full
surface width, overflows the height, and is centered. -/
theorem coverFit_covers_and_centers_witness :
    (16 : ℚ) ≤ (coverFit 4 3 16 9).drawWidth ∧
    (9 : ℚ) ≤ (coverFit 4 3 16 9).drawHeight ∧
    ((16 : ℚ) / 9 > 4 / 3 → (coverFit 4 3 16 9).drawWidth = 16) ∧
    (¬((16 : ℚ) / 9 > 4 / 3) → (coverFit 4 3 16 9).drawHeight = 9) ∧
    (coverFit 4 3 16 9).offsetX = (16 - (coverFit 4 3 16 9).drawWidth) / 2 ∧
    (coverFit 4 3 16 9).offsetY = (9 - (coverFit 4 3 16 9).drawHeight) / 2 :=
  coverFit_covers_and_centers 4 3 16 9 (by norm_num) (by norm_num)
    (by norm_num) (by norm_num)

/-- Claim C7: the target frame is monotonically non-decreasing in the
progress value over the unit interval, always lies between 0 and
frameCount minus 1, and progress one half maps to frame 95. -/
theorem targetFrame_monotone_bounded :
    (∀ p q : ℚ, 0 ≤ p → p ≤ 1 → 0 ≤ q → q ≤ 1 → p ≤ q →
      targetFrame p ≤ targetFrame q) ∧
    (∀ p : ℚ, 0 ≤ p → p ≤ 1 →
      0 ≤ targetFrame p ∧ targetFrame p ≤ (frameCount : ℤ) - 1) ∧
    targetFrame (1 / 2) = 95 := by
  refine ⟨?_, ?_, ?_⟩
  · intro p q _ _ _ _ hpq
    exact Int.floor_le_floor
      (mul_le_mul_of_nonneg_right hpq (by norm_num [frameCount]))
  · intro p hp hp1
    constructor
    · exact Int.floor_nonneg.mpr (mul_nonneg hp (by norm_num [frameCount]))
    · calc targetFrame p ≤ ⌊(frameCount : ℚ) - 1⌋ :=
            Int.floor_le_floor
              (mul_le_of_le_one_left (by norm_num [frameCount]) hp1)
        _ = (frameCount : ℤ) - 1 := by norm_num [frameCount]
  · norm_num [targetFrame, frameCount]

/-- Witness for C7: concrete instances of the monotonicity and range
parts at progress one quarter and one half. -/
theorem targetFrame_monotone_bounded_witness :
    targetFrame (1/4) ≤ targetFrame (1/2) ∧
      (0 ≤ targetFrame (1/2) ∧ targetFrame (1/2) ≤ (frameCount : ℤ) - 1) :=
  ⟨targetFrame_monotone_bounded.1 (1/4) (1/2) (by norm_num) (by norm_num)
      (by norm_num) (by norm_num) (by norm_num),
   targetFrame_monotone_bounded.2.1 (1/2) (by norm_num) (by norm_num)⟩

/-- Claim C8: the overlay positioning computed on each scroll evaluation
has exactly two states — viewport-fixed with top 0 whenever the progress
compares below 1, and absolute at the container height minus the viewport
height whenever it compares at or above 1 — and every outcome is one of
those two. -/
theorem overlay_two_modes (p : JSNum) (heroHeight viewportHeight : ℚ) :
    (jsLt p (.fin 1) = true →
      overlayUpdate p heroHeight viewportHeight = (.fixed, 0)) ∧
    (jsGe p (.fin 1) = true →
      overlayUpdate p heroHeight viewportHeight =
        (.absolute, heroHeight - viewportHeight)) ∧
    (overlayUpdate p heroHeight viewportHeight = (.fixed, 0) ∨
      overlayUpdate p heroHeight viewportHeight =
        (.absolute, heroHeight - viewportHeight)) := by
  refine ⟨?_, ?_, ?_⟩
  · intro h
    rw [overlayUpdate, if_neg]
    simp [jsLt_jsGe_exclusive _ _ h]
  · intro h
    rw [overlayUpdate, if_pos h]
  · rw [overlayUpdate]
    split
    · exact Or.inr rfl
    · exact Or.inl rfl

/-- Witness for C8: progress 0.999 keeps the overlay fixed at top 0;
progress 1 switches it to absolute at the pinned offset. -/
theorem overlay_two_modes_witness :
    overlayUpdate (.fin (999/1000)) 1182 800 = (.fixed, 0) ∧
      overlayUpdate (.fin 1) 1182 800 = (.absolute, 1182 - 800) :=
  ⟨(overlay_two_modes (.fin (999/1000)) 1182 800).1 (by norm_num [jsLt]),
   (overlay_two_modes (.fin 1) 1182 800).2.1 (by norm_num [jsGe, jsLt])⟩

/-- Claim C9: rendering the same loaded, positive-dimension frame twice
on an unchanged surface leaves the canvas in the same state as rendering
it once — each call resets the transform, clears and repaints the whole
buffer. -/
theorem drawFrame_idempotent (img : Image) (s : Surface) (st : CanvasState)
    (hw : 0 < img.width) (hh : 0 < img.height) :
    applyOps (applyOps st (drawFrame (some img) true s))
        (drawFrame (some img) true s) =
      applyOps st (drawFrame (some img) true s) :=
  applyOps_drawFrame_eq img s _ st (applyOps_width _ _) (applyOps_height _ _)

/-- Witness for C9: double-drawing the sample 800 by 600 image on the
sample surface equals drawing it once. -/
theorem drawFrame_idempotent_witness :
    applyOps (applyOps st0 (drawFrame (some sampleImage) true surf0))
        (drawFrame (some sampleImage) true surf0) =
      applyOps st0 (drawFrame (some sampleImage) true surf0) :=
  drawFrame_idempotent sampleImage surf0 st0 (by decide) (by decide)

/-- Claim C10: while the player has not transitioned to ready, a scroll
evaluation is a complete no-op — the state is unchanged and no DOM effect
is issued. -/
theorem handleScroll_noop_while_loading (s : PlayerState) (e : ScrollEnv)
    (h : s.isLoaded = false) : handleScroll s e = (s, []) :=
  handleScroll_not_loaded s e h

/-- Witness for C10: a concrete not-yet-loaded state is untouched by a
scroll evaluation. -/
theorem handleScroll_noop_while_loading_witness :
    handleScroll ⟨false, 0, false⟩ envAll = (⟨false, 0, false⟩, []) :=
  handleScroll_noop_while_loading ⟨false, 0, false⟩ envAll rfl

end ScrollFrame
